import Mathlib

/-!
Verification of the scoring and aggregation model of
`src/app_evaluacion_desempeno.py` (performance-evaluation form).

The Python source is shallowly embedded: the tier table and derived-value
formula of `meta_bloques`, the twelve-factor rubric and total score, the
duplicate-guarded evaluation writer, the cached join reader, the
admin-panel aggregate statistics, the worker deduplication of the RH form,
and the dependency-scope filters.  Machine floats in the source carry only
small decimal values; they are modelled by `ℚ`.
-/

/-- One row of the `niveles` table inside `meta_bloques`
(lines 539-544): `(label omitted, nivel, min_pct, max_pct, pct_guardado)`. -/
structure NivelMeta where
  nivel : Nat
  min_pct : Nat
  max_pct : Nat
  pct_guardado : Nat
  deriving DecidableEq, Repr

/-- The fixed tier table of `meta_bloques` (lines 539-544), labels and help
text dropped. -/
def niveles : List NivelMeta :=
  [⟨1, 0, 25, 25⟩, ⟨2, 26, 50, 50⟩, ⟨3, 51, 75, 75⟩, ⟨4, 76, 100, 100⟩]

/-- Lines 589-591: `next((mn, mx, pg) for (_, n, mn, mx, pg, _) in niveles
if n == nivel_final)` — the first tier whose `nivel` equals the selected
level; `none` models the `StopIteration` of an exhausted generator. -/
def tierLookup (nivel_final : Nat) : Option NivelMeta :=
  niveles.find? (fun t => t.nivel == nivel_final)

/-- The stored percentage for a level: `pct_guardado` of the matching tier. -/
def tier_pct (l : Nat) : Option Nat :=
  (tierLookup l).map (fun t => t.pct_guardado)

/-- Line 612: `meta_real[f"meta{i}_real"] = float(prog) * (pct_guardado /
100.0) if prog else 0.0`. -/
def metaRealValue (prog : ℚ) (pct_guardado : ℚ) : ℚ :=
  if prog ≠ 0 then prog * (pct_guardado / 100) else 0

/-- Lines 1043-1056: `FACTORES_ORDEN`, the fixed ordered list of the twelve
`(factor_id, etiqueta)` pairs. -/
def FACTORES_ORDEN : List (String × String) :=
  [("conocimiento",    "CONOCIMIENTO DEL PUESTO"),
   ("criterio",        "CRITERIO"),
   ("calidad",         "CALIDAD DEL TRABAJO"),
   ("tecnica",         "TECNICA Y ORGANIZACION DEL TRABAJO"),
   ("supervision",     "NECESIDAD DE SUPERVISION"),
   ("capacitacion",    "CAPACITACION RECIBIDA"),
   ("iniciativa",      "INICIATIVA"),
   ("colaboracion",    "COLABORACION Y DISCRECION"),
   ("responsabilidad", "RESPONSABILIDAD Y DISCIPLINA"),
   ("equipo",          "TRABAJO EN EQUIPO"),
   ("relaciones",      "RELACIONES INTERPERSONALES"),
   ("mejora",          "MEJORA CONTINUA")]

/-- Lines 1058-1067: the loop filling `calidad` — one selected level per
factor of `FACTORES_ORDEN`, in order.  `sel` gives the level stored in
session state for each `factor_id`. -/
def calidadValues (sel : String → Nat) : List Nat :=
  FACTORES_ORDEN.map (fun p => sel p.1)

/-- Line 1069: `puntaje_total = int(sum(calidad.values()))`. -/
def puntaje_total (sel : String → Nat) : Nat :=
  (calidadValues sel).sum

/-- Bounds for a sum of list elements that all lie in `[1, 4]`. -/
theorem sum_bounds_of_mem (l : List Nat)
    (h : ∀ x ∈ l, 1 ≤ x ∧ x ≤ 4) :
    l.length ≤ l.sum ∧ l.sum ≤ 4 * l.length := by
  induction l with
  | nil => simp
  | cons a t ih =>
    have ha := h a (by simp)
    have ht := ih (fun x hx => h x (by simp [hx]))
    simp only [List.sum_cons, List.length_cons]
    constructor
    · omega
    · omega

/-- Claim C1: for every level L in {1,2,3,4} and programmed value P ≥ 0,
the tier table stores 25/50/75/100 for levels 1/2/3/4, the derived real
value is P × (tier_pct(L)/100), it is 0 whenever P is 0, and the stored
percentage is monotone non-decreasing in the level. -/
theorem C1_goal_attainment_selector (L : Nat)
    (hL : L = 1 ∨ L = 2 ∨ L = 3 ∨ L = 4) (P : ℚ) (hP : 0 ≤ P) :
    (tier_pct 1 = some 25 ∧ tier_pct 2 = some 50 ∧
     tier_pct 3 = some 75 ∧ tier_pct 4 = some 100) ∧
    (∃ pct : Nat, tier_pct L = some pct ∧
      metaRealValue P (pct : ℚ) = P * ((pct : ℚ) / 100) ∧
      (P = 0 → metaRealValue P (pct : ℚ) = 0)) ∧
    (∀ t1 ∈ niveles, ∀ t2 ∈ niveles,
      t1.nivel ≤ t2.nivel → t1.pct_guardado ≤ t2.pct_guardado) := by
  refine ⟨by decide, ?_, by decide⟩
  have hmeta : ∀ q : ℚ, metaRealValue P q = P * (q / 100) := by
    intro q
    unfold metaRealValue
    by_cases h : P = 0
    · simp [h]
    · simp [h]
  rcases hL with h | h | h | h <;> subst h
  · exact ⟨25, by decide, hmeta 25, fun h0 => by simp [h0, metaRealValue]⟩
  · exact ⟨50, by decide, hmeta 50, fun h0 => by simp [h0, metaRealValue]⟩
  · exact ⟨75, by decide, hmeta 75, fun h0 => by simp [h0, metaRealValue]⟩
  · exact ⟨100, by decide, hmeta 100, fun h0 => by simp [h0, metaRealValue]⟩

/-- Witness for C1 at L = 2, P = 80 (Scenario B of the spec: stored % 50,
real value 40). -/
theorem C1_goal_attainment_selector_witness :
    ((2 = 1 ∨ 2 = 2 ∨ 2 = 3 ∨ 2 = 4) ∧ (0 : ℚ) ≤ 80) ∧
    ((tier_pct 1 = some 25 ∧ tier_pct 2 = some 50 ∧
      tier_pct 3 = some 75 ∧ tier_pct 4 = some 100) ∧
     (∃ pct : Nat, tier_pct 2 = some pct ∧
       metaRealValue 80 (pct : ℚ) = 80 * ((pct : ℚ) / 100) ∧
       ((80 : ℚ) = 0 → metaRealValue 80 (pct : ℚ) = 0)) ∧
     (∀ t1 ∈ niveles, ∀ t2 ∈ niveles,
       t1.nivel ≤ t2.nivel → t1.pct_guardado ≤ t2.pct_guardado)) :=
  ⟨⟨by decide, by norm_num⟩,
   C1_goal_attainment_selector 2 (by decide) 80 (by norm_num)⟩

/-- Claim C2: for every complete set of twelve factor selections, each a
level in {1,2,3,4}, the total score is the arithmetic sum of the twelve
selected levels and lies in [12, 48]. -/
theorem C2_puntaje_total_sum_bounds (sel : String → Nat)
    (hsel : ∀ p ∈ FACTORES_ORDEN, 1 ≤ sel p.1 ∧ sel p.1 ≤ 4) :
    puntaje_total sel = (calidadValues sel).sum ∧
    (calidadValues sel).length = 12 ∧
    12 ≤ puntaje_total sel ∧ puntaje_total sel ≤ 48 := by
  have hlen : (calidadValues sel).length = 12 := by
    simp [calidadValues, FACTORES_ORDEN]
  have hmem : ∀ x ∈ calidadValues sel, 1 ≤ x ∧ x ≤ 4 := by
    intro x hx
    rcases List.mem_map.mp hx with ⟨p, hp, hpx⟩
    exact hpx ▸ hsel p hp
  have hb := sum_bounds_of_mem (calidadValues sel) hmem
  refine ⟨rfl, hlen, ?_, ?_⟩
  · have := hb.1
    rw [hlen] at this
    exact this
  · have := hb.2
    rw [hlen] at this
    exact this

/-- Witness for C2 with every factor selected at level 3 (Scenario C of
the spec: total = 36 lies in [12, 48]). -/
theorem C2_puntaje_total_sum_bounds_witness :
    (∀ p ∈ FACTORES_ORDEN, 1 ≤ (fun _ : String => 3) p.1 ∧
      (fun _ : String => 3) p.1 ≤ 4) ∧
    (puntaje_total (fun _ => 3) = (calidadValues (fun _ => 3)).sum ∧
     (calidadValues (fun _ => 3)).length = 12 ∧
     12 ≤ puntaje_total (fun _ => 3) ∧ puntaje_total (fun _ => 3) ≤ 48) :=
  ⟨by decide, C2_puntaje_total_sum_bounds (fun _ => 3) (by decide)⟩

/-- Lines 978-1029: the level `matriz_seleccionable` returns.  The function
fills the session-state key with `default` when absent (lines 981-982) and
returns `int(st.session_state[state_key])` unchanged (line 1029); no range
check is performed on the stored value. -/
def matrizSeleccionableNivel (state : Option Nat) (dflt : Nat) : Nat :=
  match state with
  | none => dflt
  | some v => v

/-- Counterexample to claim C5: a stored level 7 — outside {1,2,3,4} — is
returned unchanged by the Factor Scorer rather than rejected with a
ValidationError, and the Goal Attainment Selector's tier search finds no
matching tier for it (an exhausted generator, i.e. `StopIteration`, not a
ValidationError). -/
theorem C5_counterexample :
    matrizSeleccionableNivel (some 7) 2 = 7 ∧
    ¬(matrizSeleccionableNivel (some 7) 2 = 1 ∨
      matrizSeleccionableNivel (some 7) 2 = 2 ∨
      matrizSeleccionableNivel (some 7) 2 = 3 ∨
      matrizSeleccionableNivel (some 7) 2 = 4) ∧
    tierLookup 7 = none := by
  decide

/-- Claim C5 as amended: neither operation rejects an out-of-range level
with a ValidationError.  The Factor Scorer returns any stored level outside
{1,2,3,4} unchanged, and the Goal Attainment Selector's tier lookup yields
no tier for it (the `next(...)` generator search is exhausted). -/
theorem C5_no_validation_rejection (v dflt : Nat)
    (hv : ¬(v = 1 ∨ v = 2 ∨ v = 3 ∨ v = 4)) :
    matrizSeleccionableNivel (some v) dflt = v ∧ tierLookup v = none := by
  refine ⟨rfl, ?_⟩
  rw [tierLookup, List.find?_eq_none]
  intro t ht
  simp only [niveles, List.mem_cons, List.not_mem_nil, or_false] at ht
  rcases ht with h | h | h | h <;> subst h <;> simp <;> omega

/-- Witness for the amended C5 at v = 7. -/
theorem C5_no_validation_rejection_witness :
    ¬((7 : Nat) = 1 ∨ (7 : Nat) = 2 ∨ (7 : Nat) = 3 ∨ (7 : Nat) = 4) ∧
    (matrizSeleccionableNivel (some 7) 2 = 7 ∧ tierLookup 7 = none) :=
  ⟨by decide, C5_no_validation_rejection 7 2 (by decide)⟩

/-- One row of the `trabajadores` table, restricted to the columns the
embedded operations read: `id`, `nombre`, `curp` (a distinguishing legal
identifier), `dependencia` and `area_adscripcion`. -/
structure Worker where
  id : Int
  nombre : String
  curp : String
  dependencia : String
  area_adscripcion : String
  deriving DecidableEq, Repr

/-- Line 363: `trabajadores_filtrados.drop_duplicates(subset=["nombre"])` —
pandas keeps the first row for each `nombre`, preserving order; `seen`
accumulates the names already kept. -/
def dropDuplicatesNombre (seen : List String) : List Worker → List Worker
  | [] => []
  | w :: rest =>
    if w.nombre ∈ seen then dropDuplicatesNombre seen rest
    else w :: dropDuplicatesNombre (w.nombre :: seen) rest

/-- Line 363: `trabajadores_unicos`. -/
def trabajadores_unicos (ws : List Worker) : List Worker :=
  dropDuplicatesNombre [] ws

/-- Line 366: `trab = trabajadores_unicos[trabajadores_unicos["nombre"] ==
seleccionado].iloc[0]` — the first deduplicated row with the selected
name (`none` when the frame is empty). -/
def selectTrab (ws : List Worker) (seleccionado : String) : Option Worker :=
  ((trabajadores_unicos ws).filter (fun w => w.nombre == seleccionado)).head?


/-- The rows of the deduplicated frame carrying a given name are exactly the
first matching row of the input, unless the name is shadowed by `seen`. -/
theorem filter_dropDuplicatesNombre (n : String) :
    ∀ (l : List Worker) (seen : List String),
      (dropDuplicatesNombre seen l).filter (fun w => w.nombre == n) =
        if n ∈ seen then []
        else (l.find? (fun w => w.nombre == n)).toList := by
  intro l
  induction l with
  | nil =>
    intro seen
    simp [dropDuplicatesNombre]
  | cons w rest ih =>
    intro seen
    by_cases hw : w.nombre ∈ seen
    · rw [dropDuplicatesNombre, if_pos hw, ih seen]
      by_cases hn : n ∈ seen
      · simp [hn]
      · have hne : ¬(w.nombre == n) = true := by
          intro hb
          exact hn (eq_of_beq hb ▸ hw)
        have hfind : List.find? (fun w => w.nombre == n) (w :: rest) =
            List.find? (fun w => w.nombre == n) rest :=
          List.find?_cons_of_neg rest hne
        rw [if_neg hn, if_neg hn, hfind]
    · rw [dropDuplicatesNombre, if_neg hw]
      by_cases hb : (w.nombre == n) = true
      · have hnw : n = w.nombre := (eq_of_beq hb).symm
        have hns : n ∉ seen := hnw ▸ hw
        have hfilter : List.filter (fun w => w.nombre == n)
            (w :: dropDuplicatesNombre (w.nombre :: seen) rest) =
            w :: List.filter (fun w => w.nombre == n)
              (dropDuplicatesNombre (w.nombre :: seen) rest) :=
          List.filter_cons_of_pos hb
        have hfind : List.find? (fun w => w.nombre == n) (w :: rest) = some w :=
          List.find?_cons_of_pos rest hb
        rw [hfilter, ih (w.nombre :: seen),
          if_pos (show n ∈ w.nombre :: seen by simp [hnw]), if_neg hns, hfind]
        rfl
      · have hne : n ≠ w.nombre := by
          intro h
          subst h
          simp at hb
        have hfilter : List.filter (fun w => w.nombre == n)
            (w :: dropDuplicatesNombre (w.nombre :: seen) rest) =
            List.filter (fun w => w.nombre == n)
              (dropDuplicatesNombre (w.nombre :: seen) rest) :=
          List.filter_cons_of_neg hb
        have hfind : List.find? (fun w => w.nombre == n) (w :: rest) =
            List.find? (fun w => w.nombre == n) rest :=
          List.find?_cons_of_neg rest hb
        have hiff : (n ∈ w.nombre :: seen) ↔ (n ∈ seen) := by
          simp [List.mem_cons, hne]
        rw [hfilter, ih (w.nombre :: seen), if_congr hiff rfl rfl, hfind]

/-- Claim C9: the evaluation form deduplicates the dependency's workers by
display name — the deduplicated frame holds, for each name, exactly the
first matching row of the worker list, and the row the form selects for a
chosen name is that first row, so a later row sharing the name is never
exposed for evaluation. -/
theorem C9_dedup_by_nombre (ws : List Worker) (n : String) :
    (trabajadores_unicos ws).filter (fun w => w.nombre == n) =
      (ws.find? (fun w => w.nombre == n)).toList ∧
    selectTrab ws n = ws.find? (fun w => w.nombre == n) := by
  have h := filter_dropDuplicatesNombre n ws []
  rw [if_neg (List.not_mem_nil n)] at h
  refine ⟨?_, ?_⟩
  · unfold trabajadores_unicos
    exact h
  · unfold selectTrab trabajadores_unicos
    rw [h]
    cases ws.find? (fun w => w.nombre == n) <;> rfl

/-- The twelve factor levels written to the `evaluaciones` columns by the
loop over `map_factores` (lines 1119-1120):
`nueva_eval[columna_sql] = int(calidad[etiqueta])`. -/
structure FactorScores where
  conocimiento : Nat
  criterio : Nat
  calidad : Nat
  tecnica : Nat
  supervision : Nat
  capacitacion : Nat
  iniciativa : Nat
  colaboracion : Nat
  responsabilidad : Nat
  equipo : Nat
  relaciones : Nat
  mejora : Nat
  deriving DecidableEq, Repr

/-- The current date `hoy = datetime.now()` with
`dia, mes, anio = hoy.day, hoy.month, hoy.year` (lines 1075-1076). -/
structure Fecha where
  day : Nat
  month : Nat
  year : Nat
  deriving DecidableEq, Repr

/-- One row of the `evaluaciones` table as assembled by the `nueva_eval`
dict (lines 1100-1120); the auto-generated `id` column is owned by the
store and omitted. -/
structure EvalRow where
  trabajador_id : Int
  dia : Nat
  mes : Nat
  anio : Nat
  meta1_real : ℚ
  meta2_real : ℚ
  meta3_real : ℚ
  resultado1 : ℚ
  resultado2 : ℚ
  resultado3 : ℚ
  conocimiento : Nat
  criterio : Nat
  calidad : Nat
  tecnica : Nat
  supervision : Nat
  capacitacion : Nat
  iniciativa : Nat
  colaboracion : Nat
  responsabilidad : Nat
  equipo : Nat
  relaciones : Nat
  mejora : Nat
  puntaje_total : ℚ
  comentarios : String
  necesidades_capac : String
  deriving DecidableEq, Repr

/-- Lines 1100-1120: the `nueva_eval` dict built from the current date, the
derived goal values and stored percentages, the twelve factor levels, the
computed total and the free-text fields. -/
def nueva_eval (tid : Int) (hoy : Fecha) (m1 m2 m3 r1 r2 r3 : ℚ)
    (calidad : FactorScores) (total : ℚ)
    (comentarios necesidades : String) : EvalRow :=
  { trabajador_id := tid
    dia := hoy.day
    mes := hoy.month
    anio := hoy.year
    meta1_real := m1
    meta2_real := m2
    meta3_real := m3
    resultado1 := r1
    resultado2 := r2
    resultado3 := r3
    conocimiento := calidad.conocimiento
    criterio := calidad.criterio
    calidad := calidad.calidad
    tecnica := calidad.tecnica
    supervision := calidad.supervision
    capacitacion := calidad.capacitacion
    iniciativa := calidad.iniciativa
    colaboracion := calidad.colaboracion
    responsabilidad := calidad.responsabilidad
    equipo := calidad.equipo
    relaciones := calidad.relaciones
    mejora := calidad.mejora
    puntaje_total := total
    comentarios := comentarios
    necesidades_capac := necesidades }

/-- The duplicate-check query of lines 1090-1094:
`.match({"trabajador_id": ..., "mes": ..., "anio": ...})` — `mes` and
`anio` are the current month and year (line 1076). -/
def matchesDup (tid : Int) (hoy : Fecha) (r : EvalRow) : Bool :=
  r.trabajador_id == tid && r.mes == hoy.month && r.anio == hoy.year

/-- The failure the save handler signals when the duplicate check matches
(lines 1096-1098): the DuplicateEvaluationError of the spec taxonomy. -/
inductive SaveError
  | duplicate
  deriving DecidableEq, Repr

/-- Lines 1087-1122 of the "Guardar Evaluación" handler: if a row for
`(trabajador_id, mes, anio)` already exists the handler errors and stops
before writing; otherwise it inserts the one new row. -/
def guardarEvaluacion (db : List EvalRow) (tid : Int) (hoy : Fecha)
    (m1 m2 m3 r1 r2 r3 : ℚ) (calidad : FactorScores) (total : ℚ)
    (comentarios necesidades : String) : List EvalRow × Option SaveError :=
  if (db.filter (matchesDup tid hoy)).isEmpty then
    (db ++ [nueva_eval tid hoy m1 m2 m3 r1 r2 r3 calidad total comentarios necesidades],
     none)
  else
    (db, some SaveError.duplicate)

/-- One flattened row produced by `cargar_evaluaciones_join`
(lines 129-164): the selected evaluation columns plus `nombre`,
`dependencia` and `area_general` from the joined worker (absent when the
foreign key resolves to no row) and the derived `periodo` label. -/
structure JoinedRow where
  trabajador_id : Int
  dia : Nat
  mes : Nat
  anio : Nat
  meta1_real : ℚ
  meta2_real : ℚ
  meta3_real : ℚ
  resultado1 : ℚ
  resultado2 : ℚ
  resultado3 : ℚ
  conocimiento : Nat
  criterio : Nat
  calidad : Nat
  tecnica : Nat
  supervision : Nat
  capacitacion : Nat
  iniciativa : Nat
  colaboracion : Nat
  responsabilidad : Nat
  equipo : Nat
  relaciones : Nat
  mejora : Nat
  puntaje_total : ℚ
  comentarios : String
  nombre : Option String
  dependencia : Option String
  area_general : Option String
  periodo : String
  deriving DecidableEq, Repr

/-- Flattening of one joined record (lines 141-148 and 159-164): the
evaluation columns are copied and the three worker display fields are
taken from the row the foreign key `trabajador_id` resolves to. -/
def joinRow (trabajadores : List Worker) (r : EvalRow) : JoinedRow :=
  let t := trabajadores.find? (fun w => w.id == r.trabajador_id)
  { trabajador_id := r.trabajador_id
    dia := r.dia
    mes := r.mes
    anio := r.anio
    meta1_real := r.meta1_real
    meta2_real := r.meta2_real
    meta3_real := r.meta3_real
    resultado1 := r.resultado1
    resultado2 := r.resultado2
    resultado3 := r.resultado3
    conocimiento := r.conocimiento
    criterio := r.criterio
    calidad := r.calidad
    tecnica := r.tecnica
    supervision := r.supervision
    capacitacion := r.capacitacion
    iniciativa := r.iniciativa
    colaboracion := r.colaboracion
    responsabilidad := r.responsabilidad
    equipo := r.equipo
    relaciones := r.relaciones
    mejora := r.mejora
    puntaje_total := r.puntaje_total
    comentarios := r.comentarios
    nombre := t.map (fun w => w.nombre)
    dependencia := t.map (fun w => w.dependencia)
    area_general := t.map (fun w => w.area_adscripcion)
    periodo := toString r.mes ++ "/" ++ toString r.anio }

/-- Lines 119-165: `cargar_evaluaciones_join` — every stored evaluation
row, flattened and joined with its worker. -/
def cargarEvaluacionesJoin (db : List EvalRow) (trabajadores : List Worker) :
    List JoinedRow :=
  db.map (joinRow trabajadores)

/-- Claim C3: when an evaluation row for the same (worker, month, year)
already exists, saving again fails with the duplicate error and the table
is unchanged — no second row is created and the original row is intact. -/
theorem C3_duplicate_rejected (db : List EvalRow) (tid : Int) (hoy : Fecha)
    (m1 m2 m3 r1 r2 r3 : ℚ) (calidad : FactorScores) (total : ℚ)
    (comentarios necesidades : String)
    (hdup : ∃ r ∈ db, matchesDup tid hoy r = true) :
    guardarEvaluacion db tid hoy m1 m2 m3 r1 r2 r3 calidad total
      comentarios necesidades = (db, some SaveError.duplicate) := by
  obtain ⟨r, hr, hm⟩ := hdup
  have hmem : r ∈ db.filter (matchesDup tid hoy) := List.mem_filter.mpr ⟨hr, hm⟩
  have hfalse : (db.filter (matchesDup tid hoy)).isEmpty = false := by
    cases hf : db.filter (matchesDup tid hoy) with
    | nil => rw [hf] at hmem; cases hmem
    | cons a l => rfl
  simp [guardarEvaluacion, hfalse]

/-- A concrete factor-score record: every factor at level 3. -/
def sampleFactores : FactorScores := ⟨3, 3, 3, 3, 3, 3, 3, 3, 3, 3, 3, 3⟩

/-- A concrete stored evaluation row: worker 1, written on 9 October 2025. -/
def sampleRow : EvalRow :=
  nueva_eval 1 ⟨9, 10, 2025⟩ 25 0 0 25 25 25 sampleFactores 36 "" ""

/-- A concrete worker row. -/
def sampleWorker : Worker :=
  ⟨1, "ANA LOPEZ", "CURP-A", "Secretaria de Salud", "AREA A"⟩

/-- Witness for C3: re-submitting for worker 1 later in the same month and
year hits the existing row and leaves the table as it was. -/
theorem C3_duplicate_rejected_witness :
    (∃ r ∈ [sampleRow], matchesDup 1 ⟨15, 10, 2025⟩ r = true) ∧
    guardarEvaluacion [sampleRow] 1 ⟨15, 10, 2025⟩ 25 0 0 25 25 25
      sampleFactores 36 "" "" = ([sampleRow], some SaveError.duplicate) :=
  ⟨⟨sampleRow, by simp, by decide⟩,
   C3_duplicate_rejected [sampleRow] 1 ⟨15, 10, 2025⟩ 25 0 0 25 25 25
     sampleFactores 36 "" "" ⟨sampleRow, by simp, by decide⟩⟩

/-- Claim C8: every row the save handler appends takes `dia`, `mes` and
`anio` from the current date `hoy`, so an evaluation can only be recorded
for the current month and year and its creation date equals its
evaluation period. -/
theorem C8_current_date_period (db : List EvalRow) (tid : Int) (hoy : Fecha)
    (m1 m2 m3 r1 r2 r3 : ℚ) (calidad : FactorScores) (total : ℚ)
    (comentarios necesidades : String) (r : EvalRow)
    (hr : r ∈ (guardarEvaluacion db tid hoy m1 m2 m3 r1 r2 r3 calidad total
      comentarios necesidades).1) :
    r ∈ db ∨ (r.dia = hoy.day ∧ r.mes = hoy.month ∧ r.anio = hoy.year) := by
  by_cases h : (db.filter (matchesDup tid hoy)).isEmpty
  · simp only [guardarEvaluacion, if_pos h] at hr
    rcases List.mem_append.mp hr with hmem | hmem
    · exact Or.inl hmem
    · right
      rw [List.mem_singleton.mp hmem]
      exact ⟨rfl, rfl, rfl⟩
  · simp only [guardarEvaluacion, if_neg h] at hr
    exact Or.inl hr

/-- Witness for C8: saving into an empty table on 15 October 2025 produces
a row dated 15/10/2025. -/
theorem C8_current_date_period_witness :
    (nueva_eval 2 ⟨15, 10, 2025⟩ 40 0 0 50 25 25 sampleFactores 30 "ok" ""
      ∈ (guardarEvaluacion [] 2 ⟨15, 10, 2025⟩ 40 0 0 50 25 25
          sampleFactores 30 "ok" "").1) ∧
    ((nueva_eval 2 ⟨15, 10, 2025⟩ 40 0 0 50 25 25 sampleFactores 30 "ok" ""
        ∈ ([] : List EvalRow)) ∨
      ((nueva_eval 2 ⟨15, 10, 2025⟩ 40 0 0 50 25 25 sampleFactores 30
          "ok" "").dia = 15 ∧
       (nueva_eval 2 ⟨15, 10, 2025⟩ 40 0 0 50 25 25 sampleFactores 30
          "ok" "").mes = 10 ∧
       (nueva_eval 2 ⟨15, 10, 2025⟩ 40 0 0 50 25 25 sampleFactores 30
          "ok" "").anio = 2025)) :=
  ⟨by simp [guardarEvaluacion],
   C8_current_date_period [] 2 ⟨15, 10, 2025⟩ 40 0 0 50 25 25 sampleFactores
     30 "ok" "" (nueva_eval 2 ⟨15, 10, 2025⟩ 40 0 0 50 25 25 sampleFactores
       30 "ok" "") (by simp [guardarEvaluacion])⟩

/-- Claim C4: an evaluation that is written successfully and then read back
through the aggregator's join query carries the same three stored
percentages, the same twelve factor scores and the same total score as
were written. -/
theorem C4_round_trip (db : List EvalRow) (trabajadores : List Worker)
    (tid : Int) (hoy : Fecha) (m1 m2 m3 r1 r2 r3 : ℚ)
    (calidad : FactorScores) (total : ℚ) (comentarios necesidades : String)
    (hnodup : (db.filter (matchesDup tid hoy)).isEmpty = true) :
    ∃ out, guardarEvaluacion db tid hoy m1 m2 m3 r1 r2 r3 calidad total
        comentarios necesidades = (out, none) ∧
      ∃ j, (cargarEvaluacionesJoin out trabajadores).getLast? = some j ∧
        j.resultado1 = r1 ∧ j.resultado2 = r2 ∧ j.resultado3 = r3 ∧
        j.conocimiento = calidad.conocimiento ∧
        j.criterio = calidad.criterio ∧
        j.calidad = calidad.calidad ∧
        j.tecnica = calidad.tecnica ∧
        j.supervision = calidad.supervision ∧
        j.capacitacion = calidad.capacitacion ∧
        j.iniciativa = calidad.iniciativa ∧
        j.colaboracion = calidad.colaboracion ∧
        j.responsabilidad = calidad.responsabilidad ∧
        j.equipo = calidad.equipo ∧
        j.relaciones = calidad.relaciones ∧
        j.mejora = calidad.mejora ∧
        j.puntaje_total = total := by
  refine ⟨db ++ [nueva_eval tid hoy m1 m2 m3 r1 r2 r3 calidad total
      comentarios necesidades],
    by simp [guardarEvaluacion, hnodup], ?_⟩
  refine ⟨joinRow trabajadores (nueva_eval tid hoy m1 m2 m3 r1 r2 r3 calidad
      total comentarios necesidades), ?_,
    by simp [joinRow, nueva_eval]⟩
  rw [cargarEvaluacionesJoin, List.map_append]
  simp only [List.map_cons, List.map_nil]
  exact List.getLast?_concat _

/-- Witness for C4: writing for worker 1 into an empty table and reading
back through the join with worker 1 present. -/
theorem C4_round_trip_witness :
    ((([] : List EvalRow).filter (matchesDup 1 ⟨9, 10, 2025⟩)).isEmpty
      = true) ∧
    (∃ out, guardarEvaluacion [] 1 ⟨9, 10, 2025⟩ 25 0 0 25 25 25
        sampleFactores 36 "" "" = (out, none) ∧
      ∃ j, (cargarEvaluacionesJoin out [sampleWorker]).getLast? = some j ∧
        j.resultado1 = 25 ∧ j.resultado2 = 25 ∧ j.resultado3 = 25 ∧
        j.conocimiento = sampleFactores.conocimiento ∧
        j.criterio = sampleFactores.criterio ∧
        j.calidad = sampleFactores.calidad ∧
        j.tecnica = sampleFactores.tecnica ∧
        j.supervision = sampleFactores.supervision ∧
        j.capacitacion = sampleFactores.capacitacion ∧
        j.iniciativa = sampleFactores.iniciativa ∧
        j.colaboracion = sampleFactores.colaboracion ∧
        j.responsabilidad = sampleFactores.responsabilidad ∧
        j.equipo = sampleFactores.equipo ∧
        j.relaciones = sampleFactores.relaciones ∧
        j.mejora = sampleFactores.mejora ∧
        j.puntaje_total = 36) :=
  ⟨rfl, C4_round_trip [] [sampleWorker] 1 ⟨9, 10, 2025⟩ 25 0 0 25 25 25
    sampleFactores 36 "" "" rfl⟩

/-- The in-session state visible to the cached reader: the stored rows and
the memoised result of `cargar_evaluaciones_join` (`st.cache_data`,
line 119; `none` = cache empty or expired). -/
structure AppState where
  db : List EvalRow
  cacheJoin : Option (List JoinedRow)
  deriving DecidableEq, Repr

/-- A call to the `st.cache_data`-decorated `cargar_evaluaciones_join`:
a cached frame is returned as is; otherwise the query runs and the result
fills the cache. -/
def readJoinCached (trabajadores : List Worker) (s : AppState) :
    List JoinedRow × AppState :=
  match s.cacheJoin with
  | some c => (c, s)
  | none =>
    let r := cargarEvaluacionesJoin s.db trabajadores
    (r, { s with cacheJoin := some r })

/-- The save handler acting on the session state (lines 1087-1130): on a
successful insert, `cargar_evaluaciones_join.clear()` (line 1128) empties
the cache; on the duplicate path `st.stop()` leaves everything untouched. -/
def writeEvalUI (s : AppState) (tid : Int) (hoy : Fecha)
    (m1 m2 m3 r1 r2 r3 : ℚ) (calidad : FactorScores) (total : ℚ)
    (comentarios necesidades : String) : AppState × Option SaveError :=
  match guardarEvaluacion s.db tid hoy m1 m2 m3 r1 r2 r3 calidad total
      comentarios necesidades with
  | (dbNew, none) => ({ db := dbNew, cacheJoin := none }, none)
  | (_, some e) => (s, some e)

/-- Claim C7: after every successful write the cached join is invalidated,
so the next aggregator read recomputes from the store and contains the
newly written row. -/
theorem C7_cache_invalidation (s : AppState) (trabajadores : List Worker)
    (tid : Int) (hoy : Fecha) (m1 m2 m3 r1 r2 r3 : ℚ)
    (calidad : FactorScores) (total : ℚ) (comentarios necesidades : String)
    (sNew : AppState)
    (hok : writeEvalUI s tid hoy m1 m2 m3 r1 r2 r3 calidad total
      comentarios necesidades = (sNew, none)) :
    sNew.cacheJoin = none ∧
    (readJoinCached trabajadores sNew).1 =
      cargarEvaluacionesJoin sNew.db trabajadores ∧
    joinRow trabajadores (nueva_eval tid hoy m1 m2 m3 r1 r2 r3 calidad total
      comentarios necesidades) ∈ (readJoinCached trabajadores sNew).1 := by
  by_cases h : (s.db.filter (matchesDup tid hoy)).isEmpty
  · simp only [writeEvalUI, guardarEvaluacion, if_pos h] at hok
    injection hok with h1 h2
    subst h1
    refine ⟨rfl, rfl, ?_⟩
    show joinRow trabajadores (nueva_eval tid hoy m1 m2 m3 r1 r2 r3 calidad
        total comentarios necesidades) ∈
      (s.db ++ [nueva_eval tid hoy m1 m2 m3 r1 r2 r3 calidad total
        comentarios necesidades]).map (joinRow trabajadores)
    exact List.mem_map_of_mem _
      (List.mem_append_right _ (List.mem_singleton.mpr rfl))
  · simp only [writeEvalUI, guardarEvaluacion, if_neg h] at hok
    injection hok with h1 h2
    exact Option.noConfusion h2

/-- Witness for C7: a successful write into a session whose cache held a
stale empty frame. -/
theorem C7_cache_invalidation_witness :
    (writeEvalUI ⟨[], some []⟩ 1 ⟨9, 10, 2025⟩ 25 0 0 25 25 25
        sampleFactores 36 "" "" =
      (⟨[sampleRow], none⟩, none)) ∧
    ((⟨[sampleRow], none⟩ : AppState).cacheJoin = none ∧
     (readJoinCached [sampleWorker] ⟨[sampleRow], none⟩).1 =
       cargarEvaluacionesJoin [sampleRow] [sampleWorker] ∧
     joinRow [sampleWorker] (nueva_eval 1 ⟨9, 10, 2025⟩ 25 0 0 25 25 25
       sampleFactores 36 "" "") ∈
         (readJoinCached [sampleWorker] ⟨[sampleRow], none⟩).1) :=
  ⟨by simp [writeEvalUI, guardarEvaluacion, sampleRow],
   C7_cache_invalidation ⟨[], some []⟩ [sampleWorker] 1 ⟨9, 10, 2025⟩
     25 0 0 25 25 25 sampleFactores 36 "" "" ⟨[sampleRow], none⟩
     (by simp [writeEvalUI, guardarEvaluacion, sampleRow])⟩

/-- Python `round` to an integer: nearest integer, ties to even. -/
def pyRound (q : ℚ) : Int :=
  let f : Int := ⌊q⌋
  let frac : ℚ := q - f
  if frac < 1 / 2 then f
  else if 1 / 2 < frac then f + 1
  else if f % 2 = 0 then f else f + 1

/-- `round(x, 2)` as on line 271. -/
def round2 (q : ℚ) : ℚ := (pyRound (q * 100) : ℚ) / 100

/-- Lines 256-263: the four optional equality filters of the admin panel,
applied conjunctively.  The "(Todos)"/"(Todas)" choices are `none` — no
restriction; `puesto` is joined through `trabajador_id` (lines 247-253). -/
def filtrosAdmin (fn fd fa fp : Option String)
    (puestoOf : Int → Option String) (r : JoinedRow) : Bool :=
  (match fn with
   | none => true
   | some v => r.nombre == some v) &&
  (match fd with
   | none => true
   | some v => r.dependencia == some v) &&
  (match fa with
   | none => true
   | some v => r.area_general == some v) &&
  (match fp with
   | none => true
   | some v => puestoOf r.trabajador_id == some v)

/-- Lines 265-274 of the admin panel: the post-filter guard and the
aggregate statistics.  An empty filtered frame warns and stops
(`st.stop()`, line 268) — reported as `none`, the "no data" state;
otherwise the count of matching rows and the mean of `puntaje_total`
rounded to 2 decimals. -/
def panelStats (df_eval : List JoinedRow) : Option (Nat × ℚ) :=
  if df_eval.isEmpty then none
  else some (df_eval.length,
    round2 ((df_eval.map (fun r => r.puntaje_total)).sum /
      (df_eval.length : ℚ)))

/-- Claim C6: when the filtered evaluation set is empty the panel reports
"no data" instead of computing a mean of an empty set; when it is
non-empty it reports the row count and the mean total score rounded to
2 decimals. -/
theorem C6_no_data_guard (rows : List JoinedRow) (fn fd fa fp : Option String)
    (puestoOf : Int → Option String) :
    (rows.filter (filtrosAdmin fn fd fa fp puestoOf) = [] →
      panelStats (rows.filter (filtrosAdmin fn fd fa fp puestoOf)) = none) ∧
    (rows.filter (filtrosAdmin fn fd fa fp puestoOf) ≠ [] →
      panelStats (rows.filter (filtrosAdmin fn fd fa fp puestoOf)) =
        some ((rows.filter (filtrosAdmin fn fd fa fp puestoOf)).length,
          round2 (((rows.filter (filtrosAdmin fn fd fa fp puestoOf)).map
              (fun r => r.puntaje_total)).sum /
            ((rows.filter (filtrosAdmin fn fd fa fp puestoOf)).length : ℚ)))) := by
  constructor
  · intro h
    rw [h]
    rfl
  · intro h
    have hne : (rows.filter (filtrosAdmin fn fd fa fp puestoOf)).isEmpty
        = false := by
      cases hf : rows.filter (filtrosAdmin fn fd fa fp puestoOf) with
      | nil => exact absurd hf h
      | cons a l => rfl
    simp [panelStats, hne]

/-- Witness for C6: the guard on an unrestricted filter over an empty and
over a one-row frame. -/
theorem C6_no_data_guard_witness :
    ((([] : List JoinedRow).filter
        (filtrosAdmin none none none none (fun _ => none)) = []) ∧
      panelStats (([] : List JoinedRow).filter
        (filtrosAdmin none none none none (fun _ => none))) = none) ∧
    (([joinRow [sampleWorker] sampleRow].filter
        (filtrosAdmin none none none none (fun _ => none)) ≠ []) ∧
      panelStats ([joinRow [sampleWorker] sampleRow].filter
          (filtrosAdmin none none none none (fun _ => none))) =
        some (([joinRow [sampleWorker] sampleRow].filter
            (filtrosAdmin none none none none (fun _ => none))).length,
          round2 ((([joinRow [sampleWorker] sampleRow].filter
              (filtrosAdmin none none none none (fun _ => none))).map
              (fun r => r.puntaje_total)).sum /
            (([joinRow [sampleWorker] sampleRow].filter
              (filtrosAdmin none none none none (fun _ => none))).length : ℚ)))) :=
  ⟨⟨rfl, (C6_no_data_guard [] none none none none (fun _ => none)).1 rfl⟩,
   ⟨by decide,
    (C6_no_data_guard [joinRow [sampleWorker] sampleRow] none none none none
      (fun _ => none)).2 (by decide)⟩⟩

/-- `astype(str)` on a pandas object column: a missing (`None`) joined
field prints as "None". -/
def astype_str : Option String → String
  | some s => s
  | none => "None"

/-- `.strip()`: leading and trailing whitespace removed. -/
def pyStrip (s : List Char) : List Char :=
  (((s.dropWhile Char.isWhitespace).reverse).dropWhile Char.isWhitespace).reverse

/-- `.str.strip().str.lower()` (and `.strip().lower()` on the scalar
side): whitespace-stripped, lowercased text. -/
def stripLower (s : String) : String :=
  String.mk ((pyStrip s.data).map Char.toLower)

/-- Lines 221-225: the admin_area scope restriction — stripped-lowercased
equality between each row's `dependencia` and the permitted dependency. -/
def adminAreaScope (df_eval : List JoinedRow)
    (dependencia_permitida : String) : List JoinedRow :=
  df_eval.filter (fun r =>
    stripLower (astype_str r.dependencia) == stripLower dependencia_permitida)

/-- Lines 355-358: the RH scope restriction on the worker table, the same
stripped-lowercased comparison. -/
def trabajadoresFiltrados (trabajadores : List Worker)
    (dependencia_rh : String) : List Worker :=
  trabajadores.filter (fun w =>
    stripLower w.dependencia == stripLower dependencia_rh)

/-- Lines 258-259: the admin_global interactive dependency filter — exact
string equality with the selected value. -/
def filtroDependenciaGlobal (df_eval : List JoinedRow)
    (filtro_dependencia : String) : List JoinedRow :=
  df_eval.filter (fun r => r.dependencia == some filtro_dependencia)

/-- Claim C10: the single-dependency role scopes (admin_area and rh)
compare dependencies after stripping whitespace and lowercasing, while the
admin_global interactive dependency filter uses exact string equality —
and the two comparisons genuinely differ ("  SALUD " matches "salud" under
the former, not under the latter). -/
theorem C10_scope_comparison (df_eval : List JoinedRow)
    (trabajadores : List Worker) (dep : String) (r : JoinedRow)
    (w : Worker) :
    (r ∈ adminAreaScope df_eval dep ↔
      r ∈ df_eval ∧ stripLower (astype_str r.dependencia) = stripLower dep) ∧
    (w ∈ trabajadoresFiltrados trabajadores dep ↔
      w ∈ trabajadores ∧ stripLower w.dependencia = stripLower dep) ∧
    (r ∈ filtroDependenciaGlobal df_eval dep ↔
      r ∈ df_eval ∧ r.dependencia = some dep) ∧
    (stripLower "  SALUD " = stripLower "salud" ∧ "  SALUD " ≠ "salud") := by
  refine ⟨?_, ?_, ?_, ⟨by decide, by decide⟩⟩
  · simp [adminAreaScope, List.mem_filter]
  · simp [trabajadoresFiltrados, List.mem_filter]
  · simp [filtroDependenciaGlobal, List.mem_filter]
